import Mathlib

/-!
Shallow embedding of the benchmark harness in `src/main.py`.

The program compares data-processing backends (pandas, polars, dask) on a
read-then-write workload.  Its effectful parts are modelled by passing the
environment explicitly:

* resident-memory samples (`psutil.Process().memory_info().rss`) are natural
  numbers of bytes supplied by the caller;
* clock samples (`time.perf_counter()`) are rationals supplied by the caller;
* a unit of work that may raise a Python exception is an
  `Except String α` value (the string is the exception description, i.e. the
  text that `repr(e)` would produce);
* file-system activity of `main` is recorded as a list of `FsEffect`s.

Python `float` arithmetic is modelled over `ℚ`; `statistics.mean` performs
exact rational arithmetic internally, so `List.sum / length` over `ℚ` matches
its semantics on the values involved.
-/

namespace Bench

/-- One successful trial's measurements: the four-field dict built by the
`read_write_*` functions in `src/main.py`. -/
structure TrialSample where
  read_time_s : ℚ
  write_time_s : ℚ
  read_mem_mb : ℚ
  write_mem_mb : ℚ
deriving DecidableEq, Repr

/-- A trial outcome: either the four-metric sample dict or the
`{"error": repr(e)}` failure dict. -/
inductive TrialOutcome where
  | sample (s : TrialSample)
  | failure (err : String)
deriving DecidableEq, Repr

/-- `True` exactly on the sample constructor. -/
def TrialOutcome.isSample : TrialOutcome → Bool
  | .sample _ => true
  | .failure _ => false

/-- `True` exactly on the failure constructor (the dict containing "error"). -/
def TrialOutcome.isFailure : TrialOutcome → Bool
  | .sample _ => false
  | .failure _ => true

/-- `measure` from `src/main.py` lines 97-113, together with a flag recording
whether the `gc.collect()` line was reached.  The environment supplies the
before samples (`mem0`, `t0`), the work's behaviour, and the after samples
(`t1`, `mem1`).  If the work raises, the lines after the call never run: the
exception propagates and no collection happens; otherwise the triple
`(res, t1 - t0, ((mem0 + mem1) / 2) / (1024 * 1024))` is returned after a
collection pass. -/
def measureGC {α : Type} (mem0 : ℕ) (t0 : ℚ) (work : Except String α)
    (t1 : ℚ) (mem1 : ℕ) : Except String (α × ℚ × ℚ) × Bool :=
  match work with
  | Except.error e => (Except.error e, false)
  | Except.ok r =>
      (Except.ok (r, t1 - t0, (((mem0 : ℚ) + (mem1 : ℚ)) / 2) / (1024 * 1024)), true)

/-- The value returned (or exception propagated) by `measure`, forgetting the
garbage-collection flag. -/
def measure {α : Type} (mem0 : ℕ) (t0 : ℚ) (work : Except String α)
    (t1 : ℚ) (mem1 : ℕ) : Except String (α × ℚ × ℚ) :=
  (measureGC mem0 t0 work t1 mem1).1

/-- `read_write_pandas` from `src/main.py` lines 115-131.  Two `measure`
calls (read, then write on the read's result); the surrounding `try`/`except`
turns any exception into the failure dict.  `α` is the backend's dataset
type (`pd.DataFrame`). -/
def read_write_pandas {α : Type} (readWork : Except String α)
    (rT0 rT1 : ℚ) (rM0 rM1 : ℕ)
    (writeWork : α → Except String Unit) (wT0 wT1 : ℚ) (wM0 wM1 : ℕ) :
    TrialOutcome :=
  match measure rM0 rT0 readWork rT1 rM1 with
  | Except.error e => TrialOutcome.failure e
  | Except.ok (df, t_read, mem_read) =>
      match measure wM0 wT0 (writeWork df) wT1 wM1 with
      | Except.error e => TrialOutcome.failure e
      | Except.ok (_, t_write, mem_write) =>
          TrialOutcome.sample ⟨t_read, t_write, mem_read, mem_write⟩

/-- `read_write_polars` from `src/main.py` lines 133-148: identical structure
to the pandas adapter (read measured, write measured, exceptions caught). -/
def read_write_polars {α : Type} (readWork : Except String α)
    (rT0 rT1 : ℚ) (rM0 rM1 : ℕ)
    (writeWork : α → Except String Unit) (wT0 wT1 : ℚ) (wM0 wM1 : ℕ) :
    TrialOutcome :=
  match measure rM0 rT0 readWork rT1 rM1 with
  | Except.error e => TrialOutcome.failure e
  | Except.ok (df, t_read, mem_read) =>
      match measure wM0 wT0 (writeWork df) wT1 wM1 with
      | Except.error e => TrialOutcome.failure e
      | Except.ok (_, t_write, mem_write) =>
          TrialOutcome.sample ⟨t_read, t_write, mem_read, mem_write⟩

/-- `read_write_dask` from `src/main.py` lines 150-167.  Three `measure`
calls: lazy read build, forced materialization (`ddf.compute()`), write.  The
sample reports `t_read_lazy + t_compute` as the read time and
`max(mem_read_lazy, mem_compute)` as the read memory.  `α` is the lazy
dataset type (`dask` dataframe), `β` the materialized one. -/
def read_write_dask {α β : Type} (readWork : Except String α)
    (rT0 rT1 : ℚ) (rM0 rM1 : ℕ)
    (computeWork : α → Except String β) (cT0 cT1 : ℚ) (cM0 cM1 : ℕ)
    (writeWork : β → Except String Unit) (wT0 wT1 : ℚ) (wM0 wM1 : ℕ) :
    TrialOutcome :=
  match measure rM0 rT0 readWork rT1 rM1 with
  | Except.error e => TrialOutcome.failure e
  | Except.ok (ddf, t_read_lazy, mem_read_lazy) =>
      match measure cM0 cT0 (computeWork ddf) cT1 cM1 with
      | Except.error e => TrialOutcome.failure e
      | Except.ok (pdf, t_compute, mem_compute) =>
          match measure wM0 wT0 (writeWork pdf) wT1 wM1 with
          | Except.error e => TrialOutcome.failure e
          | Except.ok (_, t_write, mem_write) =>
              TrialOutcome.sample
                ⟨t_read_lazy + t_compute, t_write,
                 max mem_read_lazy mem_compute, mem_write⟩

/-- The `try`/`except` around `lib_func(...)` in `main`, lines 60-65: the
adapter's own result is appended on success, and an exception escaping the
adapter call is appended as the failure dict `{"error": repr(e)}`. -/
def runTrial (res : Except String TrialOutcome) : TrialOutcome :=
  match res with
  | Except.ok r => r
  | Except.error e => TrialOutcome.failure e

/-- The cleanup step after each trial, `main` lines 67-71: inside a
`try`/`except Exception: pass`, delete `temp_out` if it exists.  The file
system is the list of existing paths; `removeFails` says whether
`os.remove` raises.  The trial's recorded outcome is threaded through
unchanged. -/
def cleanupAfterTrial (fs : List String) (temp_out : String)
    (removeFails : Bool) (outcome : TrialOutcome) :
    List String × TrialOutcome :=
  if temp_out ∈ fs then
    if removeFails then (fs, outcome)
    else (fs.filter (fun p => p ≠ temp_out), outcome)
  else (fs, outcome)

/-- The sample extracted from a trial outcome, when it is one. -/
def TrialOutcome.toSample : TrialOutcome → Option TrialSample
  | .sample s => some s
  | .failure _ => none

/-- `successful_runs` in `main` line 74: the results whose dict has no
"error" key, i.e. the samples. -/
def successfulRuns (runs_data : List TrialOutcome) : List TrialSample :=
  runs_data.filterMap TrialOutcome.toSample

/-- A backend's entry in `results["libs"]`: either the four means plus
`runs_used` (lines 82-88) or the marker `{"error": "all runs failed"}`
(line 90). -/
inductive BackendSummary where
  | stats (read_time_s write_time_s read_mem_mb write_mem_mb : ℚ)
      (runs_used : ℕ)
  | allRunsFailed
deriving DecidableEq, Repr

/-- `statistics.mean` over the values involved: exact rational mean. -/
def listMean (xs : List ℚ) : ℚ := xs.sum / (xs.length : ℚ)

/-- The aggregation in `main` lines 73-90: partition into successes, then
either the per-metric means with `runs_used`, or the failure marker. -/
def summarize (runs_data : List TrialOutcome) : BackendSummary :=
  let successful := successfulRuns runs_data
  if successful.isEmpty then BackendSummary.allRunsFailed
  else
    BackendSummary.stats
      (listMean (successful.map TrialSample.read_time_s))
      (listMean (successful.map TrialSample.write_time_s))
      (listMean (successful.map TrialSample.read_mem_mb))
      (listMean (successful.map TrialSample.write_mem_mb))
      successful.length

/-- The JSON document `main` writes: either the missing-input error object
(lines 33-35) or the full results dict (lines 38-43 and 82-93). -/
inductive Report where
  | errorReport (error input : String)
  | fullReport (input : String) (runs : ℤ) (sep : String)
      (libs : List (String × BackendSummary))
deriving DecidableEq, Repr

/-- The `"runs"` field echoed in the report, when the report has one. -/
def reportRunsEcho : Report → Option ℤ
  | Report.errorReport _ _ => none
  | Report.fullReport _ r _ _ => some r

/-- File-system-visible actions of `main`, in program order: the
`os.makedirs` call (line 27), each trial invocation of a backend function
(line 62), and the final `json.dump` to the result file (lines 34-35 or
92-93). -/
inductive FsEffect where
  | makedirs (dir : String)
  | trial (lib : String) (idx : ℕ)
  | writeReport (file : String) (rep : Report)
deriving DecidableEq, Repr

/-- `True` exactly on trial-invocation effects. -/
def FsEffect.isTrial : FsEffect → Bool
  | .trial _ _ => true
  | _ => false

/-- Number of backend-trial invocations recorded in a trace. -/
def trialCount (effects : List FsEffect) : ℕ :=
  (effects.filter FsEffect.isTrial).length

/-- The reports written by a trace, in order. -/
def writtenReports (effects : List FsEffect) : List Report :=
  effects.filterMap fun e =>
    match e with
    | FsEffect.writeReport _ r => some r
    | _ => none

/-- `main` from `src/main.py` lines 19-95 as a function of its environment.
`inputExists` is `Path(input_path).exists()`; `outcomes lib i` is the
behaviour of the call `lib_func(input_path, temp_out, encoding, sep)` for
trial `i` of backend `lib` (an exception escaping it is an `Except.error`).
In the source the configuration (`input_path`, `outdir`, `runs`, `sep`) is a
block of constants at the top of `main`; it is taken as parameters here,
with `runs : ℤ` since a Python int may be negative.  Returns the process
exit status together with the trace of file-system effects; the dict written
on lines 38-43 echoes the raw `runs`, while the loop on line 57 iterates
`range(max(1, runs))` times per backend. -/
def mainRun (inputExists : Bool) (input_path outdir sep : String)
    (runs : ℤ) (libs : List String)
    (outcomes : String → ℕ → Except String TrialOutcome) :
    ℕ × List FsEffect :=
  let result_filename := outdir ++ "/bench_result.json"
  if inputExists = false then
    (2, [FsEffect.makedirs outdir,
         FsEffect.writeReport result_filename
           (Report.errorReport "input file not found" input_path)])
  else
    let n : ℕ := (max 1 runs).toNat
    let trialEffects : List FsEffect :=
      libs.flatMap fun lib => (List.range n).map (FsEffect.trial lib)
    let libSummaries : List (String × BackendSummary) :=
      libs.map fun lib =>
        (lib, summarize ((List.range n).map fun i => runTrial (outcomes lib i)))
    (0, FsEffect.makedirs outdir :: trialEffects
        ++ [FsEffect.writeReport result_filename
             (Report.fullReport input_path runs sep libSummaries)])

/-! ## Helper lemmas -/

/-- A trial outcome satisfies exactly one of the two predicates. -/
theorem isSample_eq_not_isFailure (o : TrialOutcome) :
    o.isSample = !o.isFailure := by
  cases o <;> rfl

/-- The trial-invocation effects of the main loop contain no report write. -/
theorem writtenReports_trialEffects (libs : List String) (n : ℕ) :
    writtenReports
      (libs.flatMap fun lib => (List.range n).map (FsEffect.trial lib)) = [] := by
  induction libs with
  | nil => rfl
  | cons a as ih =>
      simp only [List.flatMap_cons, writtenReports, List.filterMap_append,
        List.filterMap_map] at ih ⊢
      simpa using ih

/-- Reports written by the success-branch trace of `main`: the final
`json.dump` only, since the loop writes none. -/
theorem writtenReports_full (outdir fname : String) (mid : List FsEffect)
    (rep : Report) (hmid : writtenReports mid = []) :
    writtenReports
      (FsEffect.makedirs outdir :: mid ++ [FsEffect.writeReport fname rep])
      = [rep] := by
  simp only [writtenReports, List.filterMap_cons, List.filterMap_append] at hmid ⊢
  simp [hmid]

/-- Trial invocations in the success-branch trace of `main` are exactly
those of the loop. -/
theorem trialCount_full (outdir fname : String) (mid : List FsEffect)
    (rep : Report) :
    trialCount
      (FsEffect.makedirs outdir :: mid ++ [FsEffect.writeReport fname rep])
      = trialCount mid := by
  simp [trialCount, List.filter_cons, List.filter_append, FsEffect.isTrial]

/-- The main loop records `n` trial invocations per backend. -/
theorem trialCount_trialEffects (libs : List String) (n : ℕ) :
    trialCount
      (libs.flatMap fun lib => (List.range n).map (FsEffect.trial lib))
      = libs.length * n := by
  induction libs with
  | nil => simp [trialCount]
  | cons a as ih =>
      simp only [List.flatMap_cons, trialCount, List.filter_append,
        List.length_append, List.filter_map] at ih ⊢
      simp only [Function.comp_def, FsEffect.isTrial, List.filter_true,
        List.length_map, List.length_range, List.length_cons] at ih ⊢
      rw [ih]
      ring

/-! ## Claims -/

/-- Claim C1: for every backend whose trial-outcome list contains at least
one success, the summary's four metrics each equal the arithmetic mean of
that metric over the successful trials only, `runs_used` is the number of
successful trials, and failed trials contribute nothing (the summary of the
full list equals the summary of the successes alone). -/
theorem c1_mean_over_successes (l : List TrialOutcome)
    (h : successfulRuns l ≠ []) :
    summarize l
      = BackendSummary.stats
          (((successfulRuns l).map TrialSample.read_time_s).sum
            / ((successfulRuns l).length : ℚ))
          (((successfulRuns l).map TrialSample.write_time_s).sum
            / ((successfulRuns l).length : ℚ))
          (((successfulRuns l).map TrialSample.read_mem_mb).sum
            / ((successfulRuns l).length : ℚ))
          (((successfulRuns l).map TrialSample.write_mem_mb).sum
            / ((successfulRuns l).length : ℚ))
          (successfulRuns l).length
    ∧ summarize l = summarize ((successfulRuns l).map TrialOutcome.sample) := by
  have hsucc : successfulRuns ((successfulRuns l).map TrialOutcome.sample)
      = successfulRuns l := by
    simp [successfulRuns, List.filterMap_map, TrialOutcome.toSample,
      Function.comp_def]
  have hne : (successfulRuns l).isEmpty = false := by
    simpa [List.isEmpty_iff] using h
  constructor
  · simp [summarize, hne, listMean]
  · simp [summarize, hsucc]

/-- Witness for C1 at a list with two successes and one failure. -/
theorem c1_mean_over_successes_witness :
    successfulRuns [TrialOutcome.sample ⟨1, 2, 3, 4⟩, TrialOutcome.failure "x",
        TrialOutcome.sample ⟨3, 4, 5, 6⟩] ≠ []
    ∧ summarize [TrialOutcome.sample ⟨1, 2, 3, 4⟩, TrialOutcome.failure "x",
        TrialOutcome.sample ⟨3, 4, 5, 6⟩] = BackendSummary.stats 2 3 4 5 2 := by
  refine ⟨by decide, ?_⟩
  have h := c1_mean_over_successes
    [TrialOutcome.sample ⟨1, 2, 3, 4⟩, TrialOutcome.failure "x",
      TrialOutcome.sample ⟨3, 4, 5, 6⟩] (by decide)
  rw [h.1]
  norm_num [successfulRuns, TrialOutcome.toSample, List.filterMap_cons]

/-- Claim C2: every adapter invocation yields exactly one of a full sample
or a failure (`isSample` and `isFailure` disagree on the result, for all
three adapters and all environments); an exception escaping the adapter call
is caught at the trial boundary and recorded as a failure, a returned
outcome is recorded as is, and the loop runs every trial regardless of
failures. -/
theorem c2_exactly_one_outcome {α β : Type} (readWork : Except String α)
    (rT0 rT1 : ℚ) (rM0 rM1 : ℕ)
    (writeWork : α → Except String Unit) (wT0 wT1 : ℚ) (wM0 wM1 : ℕ)
    (computeWork : α → Except String β) (cT0 cT1 : ℚ) (cM0 cM1 : ℕ)
    (dWriteWork : β → Except String Unit) (dT0 dT1 : ℚ) (dM0 dM1 : ℕ)
    (e : String) (trials : List (Except String TrialOutcome)) :
    ((read_write_pandas readWork rT0 rT1 rM0 rM1 writeWork wT0 wT1 wM0 wM1).isSample
      = !(read_write_pandas readWork rT0 rT1 rM0 rM1 writeWork wT0 wT1 wM0 wM1).isFailure)
    ∧ ((read_write_polars readWork rT0 rT1 rM0 rM1 writeWork wT0 wT1 wM0 wM1).isSample
      = !(read_write_polars readWork rT0 rT1 rM0 rM1 writeWork wT0 wT1 wM0 wM1).isFailure)
    ∧ ((read_write_dask readWork rT0 rT1 rM0 rM1 computeWork cT0 cT1 cM0 cM1
          dWriteWork dT0 dT1 dM0 dM1).isSample
      = !(read_write_dask readWork rT0 rT1 rM0 rM1 computeWork cT0 cT1 cM0 cM1
          dWriteWork dT0 dT1 dM0 dM1).isFailure)
    ∧ runTrial (Except.error e) = TrialOutcome.failure e
    ∧ (∀ o : TrialOutcome, runTrial (Except.ok o) = o)
    ∧ (trials.map runTrial).length = trials.length :=
  ⟨isSample_eq_not_isFailure _, isSample_eq_not_isFailure _,
   isSample_eq_not_isFailure _, rfl, fun _ => rfl, List.length_map _ _⟩

/-- Claim C3: with a missing input, `main` writes exactly the error report
and returns 2 without invoking any trial (the run does not depend on the
trial behaviours at all); with the input present, it writes the full report
and returns 0 for every possible trial behaviour, including one where every
trial of every backend fails. -/
theorem c3_exit_codes (input_path outdir sep : String) (runs : ℤ)
    (libs : List String) (outcomes : String → ℕ → Except String TrialOutcome) :
    ((mainRun false input_path outdir sep runs libs outcomes).1 = 2
      ∧ writtenReports (mainRun false input_path outdir sep runs libs outcomes).2
          = [Report.errorReport "input file not found" input_path]
      ∧ trialCount (mainRun false input_path outdir sep runs libs outcomes).2 = 0
      ∧ ∀ oc2, mainRun false input_path outdir sep runs libs oc2
          = mainRun false input_path outdir sep runs libs outcomes)
    ∧ ((mainRun true input_path outdir sep runs libs outcomes).1 = 0
      ∧ writtenReports (mainRun true input_path outdir sep runs libs outcomes).2
          = [Report.fullReport input_path runs sep (libs.map fun lib =>
              (lib, summarize ((List.range (max 1 runs).toNat).map fun i =>
                runTrial (outcomes lib i))))]) := by
  refine ⟨⟨rfl, rfl, rfl, fun _ => rfl⟩, rfl, ?_⟩
  have htrace : (mainRun true input_path outdir sep runs libs outcomes).2
      = FsEffect.makedirs outdir ::
        (libs.flatMap fun lib =>
          (List.range (max 1 runs).toNat).map (FsEffect.trial lib))
        ++ [FsEffect.writeReport (outdir ++ "/bench_result.json")
             (Report.fullReport input_path runs sep (libs.map fun lib =>
               (lib, summarize ((List.range (max 1 runs).toNat).map fun i =>
                 runTrial (outcomes lib i)))))] := rfl
  rw [htrace]
  exact writtenReports_full _ _ _ _
    (writtenReports_trialEffects libs (max 1 runs).toNat)

/-- Claim C4 counterexample: with a configured repetition count of 0, the
report echoes `runs = 0` — the raw configured value, not the clamped one —
even though one (clamped) trial was executed; 0 is not ≥ 1. -/
theorem c4_counterexample :
    (writtenReports (mainRun true "StudentsPerformance.csv" "./bench_results" ","
        0 ["pandas"] (fun _ _ => Except.ok (TrialOutcome.failure "boom"))).2).map
        reportRunsEcho = [some 0]
    ∧ ¬ (1 ≤ (0 : ℤ))
    ∧ trialCount (mainRun true "StudentsPerformance.csv" "./bench_results" ","
        0 ["pandas"] (fun _ _ => Except.ok (TrialOutcome.failure "boom"))).2 = 1 := by
  refine ⟨rfl, by decide, rfl⟩

/-- Claim C4 (amended): each backend executes `max(1, runs)` ≥ 1 trials, but
the `runs` value echoed in the report is the raw configured value, which may
be below 1; only the loop bound is clamped. -/
theorem c4_amended_clamp (input_path outdir sep : String) (runs : ℤ)
    (libs : List String) (outcomes : String → ℕ → Except String TrialOutcome) :
    trialCount (mainRun true input_path outdir sep runs libs outcomes).2
      = libs.length * (max 1 runs).toNat
    ∧ 1 ≤ (max 1 runs).toNat
    ∧ (writtenReports (mainRun true input_path outdir sep runs libs outcomes).2).map
        reportRunsEcho = [some runs] := by
  have htrace : (mainRun true input_path outdir sep runs libs outcomes).2
      = FsEffect.makedirs outdir ::
        (libs.flatMap fun lib =>
          (List.range (max 1 runs).toNat).map (FsEffect.trial lib))
        ++ [FsEffect.writeReport (outdir ++ "/bench_result.json")
             (Report.fullReport input_path runs sep (libs.map fun lib =>
               (lib, summarize ((List.range (max 1 runs).toNat).map fun i =>
                 runTrial (outcomes lib i)))))] := rfl
  refine ⟨?_, ?_, ?_⟩
  · rw [htrace, trialCount_full]
    exact trialCount_trialEffects libs (max 1 runs).toNat
  · have h : (1 : ℤ) ≤ max 1 runs := le_max_left _ _
    omega
  · rw [htrace, writtenReports_full _ _ _ _
      (writtenReports_trialEffects libs (max 1 runs).toNat)]
    rfl

/-- Claim C5: if every trial of a backend fails, the summary is exactly the
failure marker, regardless of how many failures there were or what their
descriptions said. -/
theorem c5_all_failed (l : List TrialOutcome)
    (h : ∀ o ∈ l, o.isFailure = true) :
    summarize l = BackendSummary.allRunsFailed := by
  have hnil : successfulRuns l = [] := by
    rw [successfulRuns, List.filterMap_eq_nil_iff]
    intro o ho
    cases o with
    | sample s => simpa [TrialOutcome.isFailure] using h _ ho
    | failure e => rfl
  simp [summarize, hnil]

/-- Witness for C5 at a two-failure list. -/
theorem c5_all_failed_witness :
    (∀ o ∈ [TrialOutcome.failure "a", TrialOutcome.failure "b"],
        o.isFailure = true)
    ∧ summarize [TrialOutcome.failure "a", TrialOutcome.failure "b"]
        = BackendSummary.allRunsFailed :=
  ⟨by decide, c5_all_failed _ (by decide)⟩

/-- Claim C6: on a work that returns `r`, `measure` returns `r` unchanged
together with the elapsed time and the memory figure
`(mem_before + mem_after) / 2 / 1048576`, which is nonnegative. -/
theorem c6_measure_success {α : Type} (r : α) (mem0 : ℕ) (t0 t1 : ℚ)
    (mem1 : ℕ) :
    measure mem0 t0 (Except.ok r) t1 mem1
      = Except.ok (r, t1 - t0, (((mem0 : ℚ) + (mem1 : ℚ)) / 2) / 1048576)
    ∧ 0 ≤ (((mem0 : ℚ) + (mem1 : ℚ)) / 2) / 1048576 := by
  constructor
  · norm_num [measure, measureGC]
  · positivity

/-- Claim C7: the dask adapter reports a single read time combining the lazy
build and the forced materialization, and the maximum (not sum, not mean) of
the two memory samples; concretely, 50MB and 80MB samples yield
`read_mem_mb = 80`. -/
theorem c7_dask_lazy_combination :
    (∀ {α β : Type} (ddf : α) (pdf : β)
        (rT0 rT1 cT0 cT1 wT0 wT1 : ℚ) (rM0 rM1 cM0 cM1 wM0 wM1 : ℕ),
      read_write_dask (Except.ok ddf) rT0 rT1 rM0 rM1
          (fun _ => Except.ok pdf) cT0 cT1 cM0 cM1
          (fun _ => Except.ok ()) wT0 wT1 wM0 wM1
        = TrialOutcome.sample
            ⟨(rT1 - rT0) + (cT1 - cT0), wT1 - wT0,
             max ((((rM0 : ℚ) + (rM1 : ℚ)) / 2) / 1048576)
                 ((((cM0 : ℚ) + (cM1 : ℚ)) / 2) / 1048576),
             (((wM0 : ℚ) + (wM1 : ℚ)) / 2) / 1048576⟩)
    ∧ read_write_dask (Except.ok ()) 0 0 52428800 52428800
        (fun _ => Except.ok ()) 0 0 83886080 83886080
        (fun _ => Except.ok ()) 0 0 0 0
        = TrialOutcome.sample ⟨0, 0, 80, 0⟩ := by
  constructor
  · intro α β ddf pdf rT0 rT1 cT0 cT1 wT0 wT1 rM0 rM1 cM0 cM1 wM0 wM1
    norm_num [read_write_dask, measure, measureGC]
  · norm_num [read_write_dask, measure, measureGC]

/-- Claim C8: the cleanup step never changes the trial's recorded outcome —
even when deletion raises, the exception is swallowed — and when `os.remove`
does not raise, the temp path no longer exists afterwards. -/
theorem c8_cleanup_temp (fs : List String) (temp_out : String)
    (removeFails : Bool) (outcome : TrialOutcome) :
    (cleanupAfterTrial fs temp_out removeFails outcome).2 = outcome
    ∧ temp_out ∉ (cleanupAfterTrial fs temp_out false outcome).1 := by
  constructor
  · by_cases h : temp_out ∈ fs <;> cases removeFails <;>
      simp [cleanupAfterTrial, h]
  · by_cases h : temp_out ∈ fs <;> simp [cleanupAfterTrial, h, List.mem_filter]

/-- Claim C9: when the wrapped work raises, `measure` propagates the error
without reaching `gc.collect()`; the collection pass runs only on the
success path. -/
theorem c9_gc_only_on_success {α : Type} (e : String) (r : α)
    (mem0 : ℕ) (t0 t1 : ℚ) (mem1 : ℕ)
    (mem2 : ℕ) (t2 t3 : ℚ) (mem3 : ℕ) :
    measureGC mem0 t0 (Except.error e : Except String α) t1 mem1
      = (Except.error e, false)
    ∧ (measureGC mem2 t2 (Except.ok r) t3 mem3).2 = true :=
  ⟨rfl, rfl⟩

/-- Claim C10: even with the input missing, `main` first creates the output
directory and then writes the error report into it before returning; the
missing-input path performs file-system effects. -/
theorem c10_error_path_effects (input_path outdir sep : String) (runs : ℤ)
    (libs : List String)
    (outcomes : String → ℕ → Except String TrialOutcome) :
    (mainRun false input_path outdir sep runs libs outcomes).2
      = [FsEffect.makedirs outdir,
         FsEffect.writeReport (outdir ++ "/bench_result.json")
           (Report.errorReport "input file not found" input_path)]
    ∧ (mainRun false input_path outdir sep runs libs outcomes).2 ≠ [] :=
  ⟨rfl, by simp [mainRun]⟩

end Bench
